import Mathlib

/-
Verification of the cloud-code-bot request dispatcher (free-tier Cloudflare
Worker). The definitions below are a shallow embedding of the canonical
full-featured variant of the source (the KV + R2 + D1 dispatcher): the
authenticator `verifyBasicAuth`, the route dispatcher `handleFetch` and its
routing core `handleRoutes`, together with the declared limits
`FREE_TIER_LIMITS` and the (never invoked) `checkLimits`.

External collaborators are modelled as explicit state threaded through the
dispatcher: the key-value store and the object store as association lists,
and the SQL engine as caller-supplied transition functions on an abstract
database state type. Platform string primitives used by the source
(`startsWith`, `slice`, first-occurrence `replace` on a guarded route
name, `btoa`) are modelled over the character data of Lean strings.
-/

namespace CCB

/-! ## JavaScript string primitives -/

/-- Model of the membership test used by `String.prototype.startsWith`:
the pattern (first argument) is compared character by character against
the front of the subject (second argument). -/
def charsStart : List Char → List Char → Bool
  | [], _ => true
  | _ :: _, [] => false
  | p :: ps, c :: cs => p = c && charsStart ps cs

/-- Model of `s.startsWith(pat)`. -/
def jsStartsWith (s pat : String) : Bool :=
  charsStart pat.data s.data

/-- Model of `s.slice(n)` for an ASCII-guarded position, and of the
route-name `s.replace(pat, empty)` calls in the source: every such call
site is guarded by `s.startsWith(pat)`, under which replacing the first
occurrence of `pat` equals dropping the first `pat.length` characters. -/
def jsDrop (s : String) (n : Nat) : String :=
  String.mk (s.data.drop n)

/-- JavaScript template interpolation of a possibly-undefined string
(an absent environment variable prints as the text undefined). -/
def jsStr : Option String → String
  | none => "undefined"
  | some s => s

/-- JavaScript falsiness of a possibly-undefined string: absent values
and the empty string are falsy. -/
def isFalsy : Option String → Bool
  | none => true
  | some s => s == ""

/-! ## Decimal printing (model of JavaScript number-to-string) -/

/-- Decimal digit character. -/
def digitChar (d : Nat) : Char := Char.ofNat (48 + d)

/-- Fuel-driven accumulator loop producing the decimal digits of a natural
number; the fuel argument makes the recursion structural and is always
called with at least the number itself, which bounds the digit count. -/
def natCharsAux : Nat → Nat → List Char → List Char
  | _, 0, acc => acc
  | 0, _ + 1, acc => acc
  | fuel + 1, n + 1, acc =>
      natCharsAux fuel ((n + 1) / 10) (digitChar ((n + 1) % 10) :: acc)

/-- Decimal digits of a natural number. -/
def natToChars (n : Nat) : List Char :=
  if n = 0 then ['0'] else natCharsAux n n []

/-- Decimal rendering of a natural number. -/
def natToString (n : Nat) : String := String.mk (natToChars n)

/-- Decimal digits of an integer, with a leading minus sign when negative. -/
def intToChars (i : Int) : List Char :=
  if i < 0 then '-' :: natToChars i.natAbs else natToChars i.natAbs

/-! ## base64 (model of `btoa`) -/

/-- The base64 alphabet. -/
def base64Alphabet : List Char :=
  "ABCDEFGHIJKLMNOPQRSTUVWXYZabcdefghijklmnopqrstuvwxyz0123456789+/".data

/-- The base64 digit for a 6-bit value. -/
def base64Digit (n : Nat) : Char := base64Alphabet.getD n 'A'

/-- base64-encode a byte sequence, three bytes to four digits, with
trailing padding. -/
def base64Chunks : List Nat → List Char
  | [] => []
  | [b1] => [base64Digit (b1 / 4), base64Digit (b1 % 4 * 16), '=', '=']
  | [b1, b2] =>
      [base64Digit (b1 / 4), base64Digit (b1 % 4 * 16 + b2 / 16),
       base64Digit (b2 % 16 * 4), '=']
  | b1 :: b2 :: b3 :: rest =>
      base64Digit (b1 / 4) :: base64Digit (b1 % 4 * 16 + b2 / 16) ::
      base64Digit (b2 % 16 * 4 + b3 / 64) :: base64Digit (b3 % 64) ::
      base64Chunks rest

/-- Model of `btoa`: base64 of the code points of a (latin-1) string. -/
def btoa (s : String) : String :=
  String.mk (base64Chunks (s.data.map Char.toNat))

/-! ## JSON values and `JSON.stringify` -/

/-- JSON values. Numbers are modelled as integers (the source only ever
serializes integral numbers: limits, sizes and caller-supplied data). -/
inductive Json where
  | null
  | bool (b : Bool)
  | num (i : Int)
  | str (s : String)
  | arr (items : List Json)
  | obj (fields : List (String × Json))

/-- String-body escaping performed by `JSON.stringify`, restricted to the
two structural escapes (quote and backslash); control-character escapes
are omitted, no property proved here depends on them. -/
def escapeChar (c : Char) : List Char :=
  if c = '\"' then ['\\', '\"']
  else if c = '\\' then ['\\', '\\']
  else [c]

/-- Escape every character of a string body. -/
def jsonEscape : List Char → List Char
  | [] => []
  | c :: rest => escapeChar c ++ jsonEscape rest

/-- A quoted, escaped JSON string literal. -/
def strQuote (s : String) : String :=
  String.mk ('\"' :: (jsonEscape s.data ++ ['\"']))

mutual

/-- Model of `JSON.stringify` on JSON values. -/
def Json.stringify : Json → String
  | .null => "null"
  | .bool true => "true"
  | .bool false => "false"
  | .num i => String.mk (intToChars i)
  | .str s => strQuote s
  | .arr xs => "[" ++ stringifyItems xs ++ "]"
  | .obj fs => "\x7b" ++ stringifyFields fs ++ "\x7d"

/-- Comma-separated serialization of array items. -/
def stringifyItems : List Json → String
  | [] => ""
  | [x] => Json.stringify x
  | x :: y :: rest => Json.stringify x ++ "," ++ stringifyItems (y :: rest)

/-- Comma-separated serialization of object fields. -/
def stringifyFields : List (String × Json) → String
  | [] => ""
  | [(k, v)] => strQuote k ++ ":" ++ Json.stringify v
  | (k, v) :: f :: rest =>
      strQuote k ++ ":" ++ Json.stringify v ++ "," ++ stringifyFields (f :: rest)

end

/-- Field lookup on a JSON object, `none` elsewhere (the undefined result
of destructuring a missing property). -/
def Json.getField? : Json → String → Option Json
  | .obj fs, k => (fs.find? (fun p => p.fst == k)).map (fun p => p.snd)
  | _, _ => none

/-! ## Requests, responses and collaborator state -/

/-- One entry of a multipart form: the original file name, the declared
content type, and the byte content. -/
structure FilePart where
  name : String
  type : String
  content : List Nat
deriving DecidableEq

/-- A request body, already parsed by the hosting transport: absent, a
JSON document, or multipart form data. -/
inductive ReqBody where
  | empty
  | json (j : Json)
  | form (fields : List (String × FilePart))

/-- A request descriptor: method, path (`url.pathname`), headers, body. -/
structure Request where
  method : String
  path : String
  headers : List (String × String)
  body : ReqBody

/-- A response body: text (including serialized JSON) or a byte stream. -/
inductive RespBody where
  | text (s : String)
  | stream (bytes : List Nat)
deriving DecidableEq

/-- An HTTP-shaped response. -/
structure Response where
  status : Nat
  headers : List (String × String)
  body : RespBody
deriving DecidableEq

/-- The configured credential pair, straight from the environment; either
variable may be absent. -/
structure Env where
  SERVER_USERNAME : Option String
  SERVER_PASSWORD : Option String

/-- An object stored in the object store: byte content plus the
content-type metadata recorded at upload. -/
structure StoredObject where
  body : List Nat
  contentType : String
deriving DecidableEq

/-- Collaborator state threaded through one request: the key-value store
and the object store as association lists (most recent entry first), and
the SQL engine state of abstract type. -/
structure Sys (δ : Type) where
  storage : List (String × String)
  files : List (String × StoredObject)
  db : δ

/-- The read-only per-process context: credentials, the current clock
reading (model of the timestamp read at upload time), and the SQL
collaborator behavior. `dbAll` models `prepare(sql).bind(params).all()`
and `dbExec` models `exec(statements)`; both may fault with a message and
may advance the database state. -/
structure Ctx (δ : Type) where
  env : Env
  now : Nat
  dbAll : δ → String → List Json → Except String (Json × δ)
  dbExec : δ → String → Except String δ

/-- ASCII lower-casing of one character, for case-insensitive header
name comparison. -/
def lowerChar (c : Char) : Char :=
  if 65 ≤ c.toNat ∧ c.toNat ≤ 90 then Char.ofNat (c.toNat + 32) else c

/-- ASCII case-insensitive string comparison. -/
def lowerEq (a b : String) : Bool :=
  a.data.map lowerChar == b.data.map lowerChar

/-- Case-insensitive header lookup (`Headers.prototype.get`). -/
def headerGet (hs : List (String × String)) (n : String) : Option String :=
  (hs.find? (fun p => lowerEq p.fst n)).map (fun p => p.snd)

/-- `STORAGE.get`: the most recently written value for a key. -/
def kvGet (m : List (String × String)) (k : String) : Option String :=
  (m.find? (fun p => p.fst == k)).map (fun p => p.snd)

/-- `STORAGE.put`. -/
def kvPut (m : List (String × String)) (k v : String) : List (String × String) :=
  (k, v) :: m

/-- `FILES.get`. -/
def r2Get (m : List (String × StoredObject)) (k : String) : Option StoredObject :=
  (m.find? (fun p => p.fst == k)).map (fun p => p.snd)

/-- `FILES.put`. -/
def r2Put (m : List (String × StoredObject)) (k : String) (o : StoredObject) :
    List (String × StoredObject) :=
  (k, o) :: m

/-- `formData.get`: the first form entry with the given field name. -/
def formGet (fs : List (String × FilePart)) (n : String) : Option FilePart :=
  (fs.find? (fun p => p.fst == n)).map (fun p => p.snd)

/-- Model of the platform-computed entity tag `httpEtag` of a stored
object: the source treats it as an opaque string supplied by the object
store, so any deterministic function of the stored object is a faithful
rendering; no proved property depends on its value. -/
def r2Etag (o : StoredObject) : String :=
  "\"" ++ natToString o.body.length ++ "\""

/-! ## The authenticator -/

/-- The authenticator `verifyBasicAuth`: `none` means proceed to routing,
`some r` means reject with response `r`. -/
def verifyBasicAuth (env : Env) (req : Request) : Option Response :=
  if isFalsy env.SERVER_PASSWORD then
    none
  else
    match headerGet req.headers "Authorization" with
    | none =>
        some { status := 401,
               headers := [("WWW-Authenticate", "Basic realm=\"Agent\"")],
               body := .text "Unauthorized" }
    | some authorization =>
        if jsStartsWith authorization "Basic " then
          let expected := btoa (jsStr env.SERVER_USERNAME ++ ":" ++ jsStr env.SERVER_PASSWORD)
          let provided := jsDrop authorization 6
          if provided = expected then
            none
          else
            some { status := 401, headers := [], body := .text "Unauthorized" }
        else
          some { status := 401,
                 headers := [("WWW-Authenticate", "Basic realm=\"Agent\"")],
                 body := .text "Unauthorized" }

/-! ## The router / dispatcher -/

/-- The JSON content-type header list attached to JSON responses. -/
def ctJson : List (String × String) := [("Content-Type", "application/json")]

/-- A 200 response with a serialized JSON body. -/
def jsonResp (b : String) : Response :=
  { status := 200, headers := ctJson, body := .text b }

/-- The missing-key response of the key-value retrieval route. -/
def notFound404 : Response :=
  { status := 404, headers := [], body := .text "Not found" }

/-- The missing-object response of the object retrieval route. -/
def fileNotFound404 : Response :=
  { status := 404, headers := [], body := .text "File not found" }

/-- The missing-upload response of the object store route. -/
def noFile400 : Response :=
  { status := 400, headers := [], body := .text "No file provided" }

/-- The static body of the status route. -/
def statusBody : String :=
  (Json.obj
    [("status", .str "running"),
     ("version", .str "free-tier"),
     ("services", .arr [.str "KV", .str "R2", .str "D1"]),
     ("message", .str "Cloud Code Bot Free Edition - Full Features")]).stringify

/-- The static default documentation body returned for unmatched routes. -/
def defaultBody : String :=
  (Json.obj
    [("message", .str "Cloud Code Bot Free Edition"),
     ("version", .str "2.0.0"),
     ("services", .obj
       [("kv", .str "Key-Value storage for config and cache"),
        ("r2", .str "Object storage for files and images"),
        ("d1", .str "SQL database for structured data")]),
     ("endpoints", .arr
       [.obj [("method", .str "GET"), ("path", .str "/api/status"), ("desc", .str "Service status")],
        .obj [("method", .str "POST"), ("path", .str "/api/kv"), ("desc", .str "Store data in KV")],
        .obj [("method", .str "GET"), ("path", .str "/api/kv/:key"), ("desc", .str "Retrieve from KV")],
        .obj [("method", .str "POST"), ("path", .str "/api/files"), ("desc", .str "Upload file to R2")],
        .obj [("method", .str "GET"), ("path", .str "/api/files/:key"), ("desc", .str "Download file from R2")],
        .obj [("method", .str "POST"), ("path", .str "/api/db/init"), ("desc", .str "Initialize database tables")],
        .obj [("method", .str "POST"), ("path", .str "/api/db/query"), ("desc", .str "Execute SQL query")]])]).stringify

/-- The fixed idempotent schema-creation statement of the init route. -/
def initSql : String :=
  "CREATE TABLE IF NOT EXISTS logs (\n" ++
  "  id INTEGER PRIMARY KEY AUTOINCREMENT,\n" ++
  "  level TEXT NOT NULL,\n" ++
  "  message TEXT NOT NULL,\n" ++
  "  created_at DATETIME DEFAULT CURRENT_TIMESTAMP\n" ++
  ");\n\n" ++
  "CREATE TABLE IF NOT EXISTS users (\n" ++
  "  id INTEGER PRIMARY KEY AUTOINCREMENT,\n" ++
  "  username TEXT UNIQUE NOT NULL,\n" ++
  "  created_at DATETIME DEFAULT CURRENT_TIMESTAMP\n" ++
  ");"

/-- The routing core of `handleFetch`: everything after the authentication
check, a linear first-match-wins route table. A `TypeError` result models
an unhandled platform fault thrown while destructuring a request body
whose shape does not fit the route (the source lets such faults
propagate); faults from `dbExec` on the init route propagate likewise. -/
def handleRoutes {δ : Type} (ctx : Ctx δ) (req : Request) (st : Sys δ) :
    Except String (Response × Sys δ) :=
  if req.path = "/api/status" then
    .ok (jsonResp statusBody, st)
  else if req.path = "/api/kv" ∧ req.method = "POST" then
    match req.body with
    | .json j =>
        match j.getField? "key", j.getField? "value" with
        | some (.str key), some value =>
            .ok (jsonResp (Json.obj [("success", .bool true), ("key", .str key)]).stringify,
                 { st with storage := kvPut st.storage key value.stringify })
        | _, _ => .error "TypeError: malformed /api/kv body"
    | _ => .error "TypeError: request body is not JSON"
  else if jsStartsWith req.path "/api/kv/" ∧ req.method = "GET" then
    let key := jsDrop req.path 8
    match kvGet st.storage key with
    | none => .ok (notFound404, st)
    | some value =>
        if value = "" then .ok (notFound404, st)
        else .ok ({ status := 200, headers := ctJson, body := .text value }, st)
  else if req.path = "/api/files" ∧ req.method = "POST" then
    match req.body with
    | .form formData =>
        match formGet formData "file" with
        | none => .ok (noFile400, st)
        | some file =>
            let key := "uploads/" ++ natToString ctx.now ++ "-" ++ file.name
            .ok (jsonResp (Json.obj
                  [("success", .bool true),
                   ("key", .str key),
                   ("url", .str ("/api/files/" ++ key))]).stringify,
                 { st with files := r2Put st.files key { body := file.content, contentType := file.type } })
    | _ => .error "TypeError: request body is not form data"
  else if jsStartsWith req.path "/api/files/" ∧ req.method = "GET" then
    let key := jsDrop req.path 11
    match r2Get st.files key with
    | none => .ok (fileNotFound404, st)
    | some object =>
        .ok ({ status := 200,
               headers := [("Content-Type", object.contentType), ("etag", r2Etag object)],
               body := .stream object.body }, st)
  else if req.path = "/api/db/query" ∧ req.method = "POST" then
    match req.body with
    | .json j =>
        match j.getField? "sql" with
        | some (.str sql) =>
            let run : List Json → Except String (Response × Sys δ) := fun params =>
              match ctx.dbAll st.db sql params with
              | .ok (result, db2) =>
                  .ok (jsonResp (Json.obj [("success", .bool true), ("result", result)]).stringify,
                       { st with db := db2 })
              | .error e =>
                  .ok ({ status := 400, headers := ctJson,
                         body := .text (Json.obj [("success", .bool false), ("error", .str e)]).stringify },
                       st)
            match j.getField? "params" with
            | some (.arr ps) => run ps
            | none => run []
            | some _ => .error "TypeError: params is not iterable"
        | _ => .error "TypeError: malformed /api/db/query body"
    | _ => .error "TypeError: request body is not JSON"
  else if req.path = "/api/db/init" ∧ req.method = "POST" then
    match ctx.dbExec st.db initSql with
    | .ok db2 =>
        .ok (jsonResp (Json.obj [("success", .bool true), ("message", .str "Database initialized")]).stringify,
             { st with db := db2 })
    | .error e => .error e
  else
    .ok (jsonResp defaultBody, st)

/-- The dispatcher `handleFetch`: authenticate, then route. -/
def handleFetch {δ : Type} (ctx : Ctx δ) (req : Request) (st : Sys δ) :
    Except String (Response × Sys δ) :=
  match verifyBasicAuth ctx.env req with
  | some authError => .ok (authError, st)
  | none => handleRoutes ctx req st

/-! ## Declared free-tier limits and the limit check -/

/-- Key-value store limits. -/
structure KvLimits where
  maxStorageBytes : Nat
  maxKeySize : Nat
  maxValueSize : Nat

/-- Object store limits. -/
structure R2Limits where
  maxStorageBytes : Nat
  maxFileSize : Nat
  maxFilesPerDay : Nat

/-- SQL engine limits. -/
structure D1Limits where
  maxStorageBytes : Nat
  maxQueryLength : Nat
  maxRowsPerQuery : Nat

/-- Request-volume limits. -/
structure ReqLimits where
  maxPerDay : Nat

/-- All declared limits. -/
structure Limits where
  kv : KvLimits
  r2 : R2Limits
  d1 : D1Limits
  requests : ReqLimits

/-- The declared free-tier limits configuration. -/
def FREE_TIER_LIMITS : Limits :=
  { kv := { maxStorageBytes := 1024 * 1024 * 1024,
            maxKeySize := 512 * 1024,
            maxValueSize := 25 * 1024 * 1024 },
    r2 := { maxStorageBytes := 10 * 1024 * 1024 * 1024,
            maxFileSize := 300 * 1024 * 1024,
            maxFilesPerDay := 1000 },
    d1 := { maxStorageBytes := 500 * 1024 * 1024,
            maxQueryLength := 100000,
            maxRowsPerQuery := 50000 },
    requests := { maxPerDay := 100000 } }

/-- The service selector of `checkLimits`. -/
inductive LimitType where
  | kv
  | r2
  | d1
deriving DecidableEq

/-- The limit check defined by the source (and, as proved below, never
invoked by `handleFetch`): a 413 response when a size exceeds the
per-item maximum of the selected service. -/
def checkLimits (t : LimitType) (size : Nat) : Option Response :=
  if t = LimitType.kv ∧ FREE_TIER_LIMITS.kv.maxValueSize < size then
    some { status := 413, headers := [],
           body := .text (Json.obj
             [("error", .str "KV value too large"),
              ("limit", .num (FREE_TIER_LIMITS.kv.maxValueSize : Int)),
              ("received", .num (size : Int))]).stringify }
  else if t = LimitType.r2 ∧ FREE_TIER_LIMITS.r2.maxFileSize < size then
    some { status := 413, headers := [],
           body := .text (Json.obj
             [("error", .str "File too large"),
              ("limit", .num (FREE_TIER_LIMITS.r2.maxFileSize : Int)),
              ("received", .num (size : Int))]).stringify }
  else
    none

/-! ## Request builders for the routes under scrutiny -/

/-- A `POST /api/kv` request storing value `V` under key `K`. -/
def kvPostReq (hs : List (String × String)) (K : String) (V : Json) : Request :=
  { method := "POST", path := "/api/kv", headers := hs,
    body := .json (Json.obj [("key", .str K), ("value", V)]) }

/-- A `GET /api/kv/K` request. -/
def kvGetReq (hs : List (String × String)) (K : String) : Request :=
  { method := "GET", path := "/api/kv/" ++ K, headers := hs, body := .empty }

/-- A `POST /api/files` multipart upload request. -/
def uploadReq (hs : List (String × String)) (fs : List (String × FilePart)) : Request :=
  { method := "POST", path := "/api/files", headers := hs, body := .form fs }

/-- A `GET /api/files/K` request. -/
def fileGetReq (hs : List (String × String)) (K : String) : Request :=
  { method := "GET", path := "/api/files/" ++ K, headers := hs, body := .empty }

/-- A `POST /api/db/query` request with statement `q` and parameters `ps`. -/
def dbQueryReq (hs : List (String × String)) (q : String) (ps : List Json) : Request :=
  { method := "POST", path := "/api/db/query", headers := hs,
    body := .json (Json.obj [("sql", .str q), ("params", .arr ps)]) }

/-- The storage key generated for an upload: the clock reading combined
with the original file name. -/
def genKey {δ : Type} (ctx : Ctx δ) (f : FilePart) : String :=
  "uploads/" ++ natToString ctx.now ++ "-" ++ f.name

/-- The object recorded for an uploaded file: its bytes and its declared
content type. -/
def storedOf (f : FilePart) : StoredObject :=
  { body := f.content, contentType := f.type }

/-! ## Concrete fixtures for witnesses -/

/-- A concrete context with authentication disabled and a fake SQL
collaborator that faults on the statement BAD and succeeds otherwise. -/
def ctxOpen : Ctx Unit :=
  { env := ⟨none, none⟩, now := 7,
    dbAll := fun d q _ => if q = "BAD" then .error "syntax error at BAD" else .ok (Json.arr [], d),
    dbExec := fun d _ => .ok d }

/-- A concrete context with credentials admin / pw configured. -/
def ctxAuth : Ctx Unit := { ctxOpen with env := ⟨some "admin", some "pw"⟩ }

/-- The empty collaborator state. -/
def st0 : Sys Unit := { storage := [], files := [], db := () }

/-- The correct Authorization header value for admin / pw. -/
def authHs : List (String × String) := [("Authorization", "Basic YWRtaW46cHc=")]

/-- A JSON string value whose serialization is three bytes over the
declared 25 MiB per-value maximum. -/
def bigVal : Json := .str (String.mk (List.replicate 26214401 'a'))

/-- A `POST /api/kv` request carrying `bigVal`. -/
def bigReq : Request := kvPostReq [] "k" bigVal

/-! ## String and routing lemmas -/

theorem strData_append : ∀ (s t : String), (s ++ t).data = s.data ++ t.data
  | ⟨_⟩, ⟨_⟩ => rfl

theorem strMk_data : ∀ (s : String), String.mk s.data = s
  | ⟨_⟩ => rfl

theorem charsStart_self_append : ∀ (p k : List Char), charsStart p (p ++ k) = true
  | [], _ => rfl
  | c :: ps, k => by
      simp only [List.cons_append, charsStart, List.append_eq]
      rw [charsStart_self_append ps k]
      simp

theorem charsStart_common : ∀ (s p q : List Char),
    charsStart p s = true → charsStart q s = true →
    charsStart p q = true ∨ charsStart q p = true := by
  intro s
  induction s with
  | nil =>
      intro p q hp hq
      cases p with
      | nil => exact Or.inl rfl
      | cons c cs => exact absurd hp (by simp [charsStart])
  | cons c cs ih =>
      intro p q hp hq
      cases p with
      | nil => exact Or.inl rfl
      | cons a as =>
          cases q with
          | nil => exact Or.inr rfl
          | cons b bs =>
              simp only [charsStart, Bool.and_eq_true, decide_eq_true_eq] at hp hq
              rcases ih as bs hp.2 hq.2 with h | h
              · exact Or.inl (by simp [charsStart, hp.1, hq.1, h])
              · exact Or.inr (by simp [charsStart, hp.1, hq.1, h])

theorem jsStartsWith_append (pre k : String) :
    jsStartsWith (pre ++ k) pre = true := by
  unfold jsStartsWith
  rw [strData_append]
  exact charsStart_self_append pre.data k.data

theorem jsDrop_append (pre k : String) :
    jsDrop (pre ++ k) pre.length = k := by
  unfold jsDrop
  rw [strData_append]
  show String.mk ((pre.data ++ k.data).drop pre.data.length) = k
  rw [List.drop_left, strMk_data]

theorem ne_of_jsStartsWith {s t pre : String}
    (h1 : jsStartsWith s pre = true) (h2 : jsStartsWith t pre = false) :
    s ≠ t := by
  intro he
  rw [he, h2] at h1
  cases h1

/-! ## Serialization lemmas -/

theorem digitChar_bounds : ∀ d < 10, 48 ≤ (digitChar d).toNat ∧ (digitChar d).toNat < 58 := by
  decide

theorem natCharsAux_chars :
    ∀ (fuel n : Nat) (acc : List Char),
      (∀ c ∈ acc, 48 ≤ c.toNat ∧ c.toNat < 58) →
      ∀ c ∈ natCharsAux fuel n acc, 48 ≤ c.toNat ∧ c.toNat < 58 := by
  intro fuel
  induction fuel with
  | zero =>
      intro n acc hacc c hc
      cases n with
      | zero => exact hacc c hc
      | succ m => exact hacc c hc
  | succ f ih =>
      intro n acc hacc c hc
      cases n with
      | zero => exact hacc c hc
      | succ m =>
          refine ih ((m + 1) / 10) (digitChar ((m + 1) % 10) :: acc) ?_ c hc
          intro x hx
          rcases List.mem_cons.mp hx with h | h
          · subst h
            exact digitChar_bounds _ (Nat.mod_lt _ (by norm_num))
          · exact hacc x h

theorem natCharsAux_length :
    ∀ (fuel n : Nat) (acc : List Char),
      acc.length ≤ (natCharsAux fuel n acc).length := by
  intro fuel
  induction fuel with
  | zero =>
      intro n acc
      cases n with
      | zero => exact Nat.le_refl _
      | succ m => exact Nat.le_refl _
  | succ f ih =>
      intro n acc
      cases n with
      | zero => exact Nat.le_refl _
      | succ m =>
          calc acc.length ≤ (digitChar ((m + 1) % 10) :: acc).length := by simp
            _ ≤ _ := ih ((m + 1) / 10) _

theorem natToChars_ne_nil (n : Nat) : natToChars n ≠ [] := by
  unfold natToChars
  split
  · simp
  · intro h
    rename_i hn
    have h1 : (1 : Nat) ≤ (natCharsAux n n []).length := by
      cases n with
      | zero => exact absurd rfl hn
      | succ m =>
          show 1 ≤ (natCharsAux (m + 1) (m + 1) []).length
          have := natCharsAux_length m ((m + 1) / 10) (digitChar ((m + 1) % 10) :: [])
          simp only [List.length_cons, List.length_nil] at this
          simp only [natCharsAux]
          omega
    rw [h] at h1
    simp at h1

theorem natToChars_digits (n : Nat) :
    ∀ c ∈ natToChars n, 48 ≤ c.toNat ∧ c.toNat < 58 := by
  intro c hc
  unfold natToChars at hc
  split at hc
  · rcases List.mem_singleton.mp hc with rfl
    decide
  · exact natCharsAux_chars n n [] (by simp) c hc

/-- Every serialized JSON value starts with a digit or one of a fixed set
of structural characters. -/
theorem stringify_data_cons (j : Json) :
    ∃ c l, (Json.stringify j).data = c :: l ∧
      (c.toNat < 58 ∨ c ∈ ['-', 'n', 't', 'f', '\"', '[', '\x7b']) := by
  cases j with
  | null => exact ⟨'n', _, rfl, by decide⟩
  | bool b => cases b with
    | true => exact ⟨'t', _, rfl, by decide⟩
    | false => exact ⟨'f', _, rfl, by decide⟩
  | num i =>
      show ∃ c l, (String.mk (intToChars i)).data = c :: l ∧ _
      unfold intToChars
      split
      · exact ⟨'-', _, rfl, by decide⟩
      · rcases hn : natToChars i.natAbs with _ | ⟨c, l⟩
        · exact absurd hn (natToChars_ne_nil _)
        · refine ⟨c, l, rfl, Or.inl ?_⟩
          exact (natToChars_digits i.natAbs c (by rw [hn]; simp)).2
  | str s => exact ⟨'\"', _, rfl, by decide⟩
  | arr xs =>
      refine ⟨'[', (stringifyItems xs).data ++ "]".data, ?_, by decide⟩
      show (("[" ++ stringifyItems xs ++ "]")).data = _
      rw [strData_append, strData_append]
      rfl
  | obj fs =>
      refine ⟨'\x7b', (stringifyFields fs).data ++ "\x7d".data, ?_, by decide⟩
      show (("\x7b" ++ stringifyFields fs ++ "\x7d")).data = _
      rw [strData_append, strData_append]
      rfl

theorem stringify_ne_empty (j : Json) : Json.stringify j ≠ "" := by
  intro h
  rcases stringify_data_cons j with ⟨c, l, hd, _⟩
  rw [h] at hd
  cases hd

theorem stringify_ne_notFound (j : Json) : Json.stringify j ≠ "Not found" := by
  intro h
  rcases stringify_data_cons j with ⟨c, l, hd, hc⟩
  rw [h] at hd
  have hcN : c = 'N' := by
    have : ('N' :: "ot found".data) = c :: l := hd
    exact (List.cons.injEq _ _ _ _ ▸ this).1.symm
  subst hcN
  rcases hc with h1 | h1
  · exact absurd h1 (by decide)
  · exact absurd h1 (by decide)

/-! ## Store lemmas -/

theorem kvGet_put_self (m : List (String × String)) (k v : String) :
    kvGet (kvPut m k v) k = some v := by
  simp [kvGet, kvPut, List.find?]

theorem r2Get_put_self (m : List (String × StoredObject)) (k : String) (o : StoredObject) :
    r2Get (r2Put m k o) k = some o := by
  simp [r2Get, r2Put, List.find?]

/-! ## Route-shape lemmas -/

theorem handleRoutes_kv_get {δ : Type} (ctx : Ctx δ) (req : Request) (st : Sys δ)
    (hm : req.method = "GET") (hp : jsStartsWith req.path "/api/kv/" = true) :
    handleRoutes ctx req st =
      (match kvGet st.storage (jsDrop req.path 8) with
       | none => .ok (notFound404, st)
       | some value =>
           if value = "" then .ok (notFound404, st)
           else .ok ({ status := 200, headers := ctJson, body := .text value }, st)) := by
  unfold handleRoutes
  rw [if_neg (fun h => absurd (h ▸ hp) (by decide)),
      if_neg (fun h => absurd (hm.symm.trans h.2) (by decide)),
      if_pos ⟨hp, hm⟩]

theorem handleRoutes_files_get {δ : Type} (ctx : Ctx δ) (req : Request) (st : Sys δ)
    (hm : req.method = "GET") (hp : jsStartsWith req.path "/api/files/" = true) :
    handleRoutes ctx req st =
      (match r2Get st.files (jsDrop req.path 11) with
       | none => .ok (fileNotFound404, st)
       | some object =>
           .ok ({ status := 200,
                  headers := [("Content-Type", object.contentType), ("etag", r2Etag object)],
                  body := .stream object.body }, st)) := by
  unfold handleRoutes
  rw [if_neg (fun h => absurd (h ▸ hp) (by decide)),
      if_neg (fun h => absurd (hm.symm.trans h.2) (by decide)),
      if_neg (fun h => ?notkv),
      if_neg (fun h => absurd (hm.symm.trans h.2) (by decide)),
      if_pos ⟨hp, hm⟩]
  case notkv =>
    rcases charsStart_common req.path.data _ _ h.1 hp with hc | hc
    · exact absurd hc (by decide)
    · exact absurd hc (by decide)

/-- The store route fully evaluated on a well-formed `POST /api/kv`
request; all route guards are literal, so this is definitional. -/
theorem handleRoutes_kv_post {δ : Type} (ctx : Ctx δ) (st : Sys δ)
    (hs : List (String × String)) (K : String) (V : Json) :
    handleRoutes ctx (kvPostReq hs K V) st =
      .ok (jsonResp (Json.obj [("success", .bool true), ("key", .str K)]).stringify,
           { st with storage := kvPut st.storage K V.stringify }) := rfl

/-- The upload route fully evaluated on a `POST /api/files` request. -/
theorem handleRoutes_upload {δ : Type} (ctx : Ctx δ) (st : Sys δ)
    (hs : List (String × String)) (fs : List (String × FilePart)) :
    handleRoutes ctx (uploadReq hs fs) st =
      (match formGet fs "file" with
       | none => .ok (noFile400, st)
       | some file =>
           let key := "uploads/" ++ natToString ctx.now ++ "-" ++ file.name
           .ok (jsonResp (Json.obj
                  [("success", .bool true),
                   ("key", .str key),
                   ("url", .str ("/api/files/" ++ key))]).stringify,
                { st with files := r2Put st.files key { body := file.content, contentType := file.type } })) := rfl

/-- The query route fully evaluated on a well-formed `POST /api/db/query`
request: the collaborator outcome decides between the 200 and the caught
400 response. -/
theorem handleRoutes_db_query {δ : Type} (ctx : Ctx δ) (st : Sys δ)
    (hs : List (String × String)) (q : String) (ps : List Json) :
    handleRoutes ctx (dbQueryReq hs q ps) st =
      (match ctx.dbAll st.db q ps with
       | .ok (result, db2) =>
           .ok (jsonResp (Json.obj [("success", .bool true), ("result", result)]).stringify,
                { st with db := db2 })
       | .error e =>
           .ok ({ status := 400, headers := ctJson,
                  body := .text (Json.obj [("success", .bool false), ("error", .str e)]).stringify },
                st)) := rfl

/-! ## Claims -/

/-- C1: for every configured credential pair (username, password) with a
non-empty password, and every request carrying an Authorization header of
the Basic scheme, the dispatcher grants access and proceeds to routing
exactly when the credential portion after the Basic prefix equals the
base64 encoding of username:password; any mismatch yields a 401 response
whose header list is empty, hence carries no WWW-Authenticate header. -/
theorem C1_basic_auth_exact_match {δ : Type} (ctx : Ctx δ) (st : Sys δ)
    (u p : String) (hp : p ≠ "") (hE : ctx.env = ⟨some u, some p⟩)
    (req : Request) (a : String)
    (hA : headerGet req.headers "Authorization" = some a)
    (hB : jsStartsWith a "Basic " = true) :
    (jsDrop a 6 = btoa (u ++ ":" ++ p) →
       verifyBasicAuth ctx.env req = none ∧
       handleFetch ctx req st = handleRoutes ctx req st) ∧
    (jsDrop a 6 ≠ btoa (u ++ ":" ++ p) →
       verifyBasicAuth ctx.env req =
         some { status := 401, headers := [], body := .text "Unauthorized" } ∧
       handleFetch ctx req st =
         .ok ({ status := 401, headers := [], body := .text "Unauthorized" }, st)) := by
  have hfalsy : isFalsy (Env.mk (some u) (some p)).SERVER_PASSWORD = false := by
    simp [isFalsy, hp]
  constructor
  · intro heq
    have hv : verifyBasicAuth ctx.env req = none := by
      rw [hE]
      unfold verifyBasicAuth
      rw [if_neg (by simp [hfalsy])]
      simp only [hA, hB, eq_self_iff_true, if_true, jsStr]
      rw [if_pos heq]
    exact ⟨hv, by simp [handleFetch, hv]⟩
  · intro hne
    have hv : verifyBasicAuth ctx.env req =
        some { status := 401, headers := [], body := .text "Unauthorized" } := by
      rw [hE]
      unfold verifyBasicAuth
      rw [if_neg (by simp [hfalsy])]
      simp only [hA, hB, eq_self_iff_true, if_true, jsStr]
      rw [if_neg hne]
    exact ⟨hv, by simp [handleFetch, hv]⟩

/-- Witness for C1 at the concrete pair admin / pw: the matching header
grants access and a mismatching credential portion is rejected with a
bare 401. -/
theorem C1_witness :
    ("pw" : String) ≠ "" ∧
    ((jsDrop "Basic YWRtaW46cHc=" 6 = btoa ("admin" ++ ":" ++ "pw") →
        verifyBasicAuth ctxAuth.env { method := "GET", path := "/api/status", headers := authHs, body := .empty } = none ∧
        handleFetch ctxAuth { method := "GET", path := "/api/status", headers := authHs, body := .empty } st0 =
          handleRoutes ctxAuth { method := "GET", path := "/api/status", headers := authHs, body := .empty } st0) ∧
     (jsDrop "Basic YWRtaW46cHc=" 6 ≠ btoa ("admin" ++ ":" ++ "pw") →
        verifyBasicAuth ctxAuth.env { method := "GET", path := "/api/status", headers := authHs, body := .empty } =
          some { status := 401, headers := [], body := .text "Unauthorized" } ∧
        handleFetch ctxAuth { method := "GET", path := "/api/status", headers := authHs, body := .empty } st0 =
          .ok ({ status := 401, headers := [], body := .text "Unauthorized" }, st0))) :=
  ⟨by decide,
   C1_basic_auth_exact_match ctxAuth st0 "admin" "pw" (by decide) rfl
     { method := "GET", path := "/api/status", headers := authHs, body := .empty }
     "Basic YWRtaW46cHc=" rfl (by decide)⟩

/-- C3: when no password is configured, authentication always allows the
request, whatever the headers, and the dispatcher proceeds to routing. -/
theorem C3_no_password_always_allowed {δ : Type} (ctx : Ctx δ) (req : Request) (st : Sys δ)
    (h : isFalsy ctx.env.SERVER_PASSWORD = true) :
    verifyBasicAuth ctx.env req = none ∧
    handleFetch ctx req st = handleRoutes ctx req st := by
  have hv : verifyBasicAuth ctx.env req = none := by
    unfold verifyBasicAuth
    rw [if_pos h]
  exact ⟨hv, by simp [handleFetch, hv]⟩

/-- Witness for C3: with no configured password, a request with a garbage
Authorization header is allowed and routed. -/
theorem C3_witness :
    isFalsy ctxOpen.env.SERVER_PASSWORD = true ∧
    (verifyBasicAuth ctxOpen.env
        { method := "GET", path := "/api/status", headers := [("Authorization", "Nonsense")], body := .empty } = none ∧
     handleFetch ctxOpen
        { method := "GET", path := "/api/status", headers := [("Authorization", "Nonsense")], body := .empty } st0 =
       handleRoutes ctxOpen
        { method := "GET", path := "/api/status", headers := [("Authorization", "Nonsense")], body := .empty } st0) :=
  ⟨by decide,
   C3_no_password_always_allowed ctxOpen
     { method := "GET", path := "/api/status", headers := [("Authorization", "Nonsense")], body := .empty }
     st0 (by decide)⟩

/-- C4: when a password is configured and the request carries no
Authorization header, or one that does not use the Basic scheme, the
dispatcher returns 401 with a WWW-Authenticate header equal to
Basic realm="Agent". -/
theorem C4_challenge_on_missing_or_nonbasic {δ : Type} (ctx : Ctx δ) (req : Request) (st : Sys δ)
    (hp : isFalsy ctx.env.SERVER_PASSWORD = false)
    (ha : headerGet req.headers "Authorization" = none ∨
          ∃ a, headerGet req.headers "Authorization" = some a ∧ jsStartsWith a "Basic " = false) :
    handleFetch ctx req st =
      .ok ({ status := 401,
             headers := [("WWW-Authenticate", "Basic realm=\"Agent\"")],
             body := .text "Unauthorized" }, st) := by
  have hv : verifyBasicAuth ctx.env req =
      some { status := 401,
             headers := [("WWW-Authenticate", "Basic realm=\"Agent\"")],
             body := .text "Unauthorized" } := by
    unfold verifyBasicAuth
    rw [if_neg (by simp [hp])]
    rcases ha with h | ⟨a, h, hb⟩
    · rw [h]
    · rw [h]
      simp [hb]
  simp [handleFetch, hv]

/-- Witness for C4: with admin / pw configured, a header-less request is
challenged with 401 and the WWW-Authenticate header. -/
theorem C4_witness :
    isFalsy ctxAuth.env.SERVER_PASSWORD = false ∧
    handleFetch ctxAuth { method := "POST", path := "/api/kv", headers := [], body := .empty } st0 =
      .ok ({ status := 401,
             headers := [("WWW-Authenticate", "Basic realm=\"Agent\"")],
             body := .text "Unauthorized" }, st0) :=
  ⟨by decide,
   C4_challenge_on_missing_or_nonbasic ctxAuth
     { method := "POST", path := "/api/kv", headers := [], body := .empty } st0
     (by decide) (Or.inl rfl)⟩

/-- C2: storing value V under key K via `POST /api/kv` acknowledges with
success echoing K and writes the serialized value; a subsequent
`GET /api/kv/K` answers 200 with the body equal to the JSON encoding of
V, leaving the state unchanged. -/
theorem C2_kv_round_trip {δ : Type} (ctx : Ctx δ) (st : Sys δ)
    (hs hs2 : List (String × String)) (K : String) (V : Json)
    (h1 : verifyBasicAuth ctx.env (kvPostReq hs K V) = none)
    (h2 : verifyBasicAuth ctx.env (kvGetReq hs2 K) = none) :
    handleFetch ctx (kvPostReq hs K V) st =
      .ok (jsonResp (Json.obj [("success", .bool true), ("key", .str K)]).stringify,
           { st with storage := kvPut st.storage K V.stringify }) ∧
    handleFetch ctx (kvGetReq hs2 K) { st with storage := kvPut st.storage K V.stringify } =
      .ok ({ status := 200, headers := ctJson, body := .text V.stringify },
           { st with storage := kvPut st.storage K V.stringify }) := by
  constructor
  · have h0 : handleFetch ctx (kvPostReq hs K V) st = handleRoutes ctx (kvPostReq hs K V) st := by
      simp [handleFetch, h1]
    rw [h0, handleRoutes_kv_post]
  · have h0 : handleFetch ctx (kvGetReq hs2 K) { st with storage := kvPut st.storage K V.stringify } =
        handleRoutes ctx (kvGetReq hs2 K) { st with storage := kvPut st.storage K V.stringify } := by
      simp [handleFetch, h2]
    rw [h0, handleRoutes_kv_get ctx (kvGetReq hs2 K) _ rfl (jsStartsWith_append "/api/kv/" K)]
    have h8 : jsDrop (kvGetReq hs2 K).path 8 = K := by
      show jsDrop ("/api/kv/" ++ K) 8 = K
      rw [show (8 : Nat) = String.length "/api/kv/" from rfl]
      exact jsDrop_append _ _
    rw [h8]
    have hg : kvGet ({ st with storage := kvPut st.storage K V.stringify } : Sys δ).storage K =
        some V.stringify := kvGet_put_self st.storage K V.stringify
    simp [hg, stringify_ne_empty V]

/-- Witness for C2 at key k and string value v with authentication
disabled. -/
theorem C2_witness :
    verifyBasicAuth ctxOpen.env (kvPostReq [] "k" (.str "v")) = none ∧
    (handleFetch ctxOpen (kvPostReq [] "k" (.str "v")) st0 =
       .ok (jsonResp (Json.obj [("success", .bool true), ("key", .str "k")]).stringify,
            { st0 with storage := kvPut st0.storage "k" (Json.str "v").stringify }) ∧
     handleFetch ctxOpen (kvGetReq [] "k") { st0 with storage := kvPut st0.storage "k" (Json.str "v").stringify } =
       .ok ({ status := 200, headers := ctJson, body := .text (Json.str "v").stringify },
            { st0 with storage := kvPut st0.storage "k" (Json.str "v").stringify })) :=
  ⟨rfl, C2_kv_round_trip ctxOpen st0 [] [] "k" (.str "v") rfl rfl⟩

/-- C5: for a well-formed `POST /api/db/query`, a collaborator fault is
caught locally and answered with 400 and a JSON body carrying the fault
message (never propagated as a fault), and a collaborator success is
answered with 200 and the structured result. -/
theorem C5_db_query_fault_caught {δ : Type} (ctx : Ctx δ) (st : Sys δ)
    (hs : List (String × String)) (q : String) (ps : List Json)
    (hauth : verifyBasicAuth ctx.env (dbQueryReq hs q ps) = none) :
    (∀ e, ctx.dbAll st.db q ps = .error e →
       handleFetch ctx (dbQueryReq hs q ps) st =
         .ok ({ status := 400, headers := ctJson,
                body := .text (Json.obj [("success", .bool false), ("error", .str e)]).stringify },
              st)) ∧
    (∀ r db2, ctx.dbAll st.db q ps = .ok (r, db2) →
       handleFetch ctx (dbQueryReq hs q ps) st =
         .ok (jsonResp (Json.obj [("success", .bool true), ("result", r)]).stringify,
              { st with db := db2 })) := by
  have h0 : handleFetch ctx (dbQueryReq hs q ps) st = handleRoutes ctx (dbQueryReq hs q ps) st := by
    simp [handleFetch, hauth]
  constructor
  · intro e he
    rw [h0, handleRoutes_db_query, he]
  · intro r db2 hr
    rw [h0, handleRoutes_db_query, hr]

/-- Witness for C5: the fake collaborator faults on the statement BAD,
which is answered 400 with the message, and succeeds on SELECT 1, which
is answered 200. -/
theorem C5_witness :
    handleFetch ctxOpen (dbQueryReq [] "BAD" []) st0 =
      .ok ({ status := 400, headers := ctJson,
             body := .text (Json.obj
               [("success", .bool false),
                ("error", .str "syntax error at BAD")]).stringify },
           st0) ∧
    handleFetch ctxOpen (dbQueryReq [] "SELECT 1" []) st0 =
      .ok (jsonResp (Json.obj [("success", .bool true), ("result", Json.arr [])]).stringify,
           { st0 with db := () }) :=
  ⟨(C5_db_query_fault_caught ctxOpen st0 [] "BAD" [] rfl).1 "syntax error at BAD" rfl,
   (C5_db_query_fault_caught ctxOpen st0 [] "SELECT 1" [] rfl).2 (Json.arr []) () rfl⟩

/-- C6: a request rejected by authentication is answered with the
rejection response immediately and leaves the key-value store, the object
store and the database state untouched. -/
theorem C6_rejection_short_circuits {δ : Type} (ctx : Ctx δ) (req : Request) (st : Sys δ)
    (r : Response) (h : verifyBasicAuth ctx.env req = some r) :
    handleFetch ctx req st = .ok (r, st) := by
  simp [handleFetch, h]

/-- Witness for C6: a request with wrong credentials is rejected and the
state is returned unchanged. -/
theorem C6_witness :
    verifyBasicAuth ctxAuth.env
      { method := "POST", path := "/api/kv", headers := [("Authorization", "Basic AAAA")],
        body := .json (Json.obj [("key", .str "k"), ("value", .str "v")]) } =
      some { status := 401, headers := [], body := .text "Unauthorized" } ∧
    handleFetch ctxAuth
      { method := "POST", path := "/api/kv", headers := [("Authorization", "Basic AAAA")],
        body := .json (Json.obj [("key", .str "k"), ("value", .str "v")]) } st0 =
      .ok ({ status := 401, headers := [], body := .text "Unauthorized" }, st0) :=
  ⟨rfl,
   C6_rejection_short_circuits ctxAuth
     { method := "POST", path := "/api/kv", headers := [("Authorization", "Basic AAAA")],
       body := .json (Json.obj [("key", .str "k"), ("value", .str "v")]) } st0
     { status := 401, headers := [], body := .text "Unauthorized" } rfl⟩

/-- C9: an upload without a file field is answered 400; an upload with a
file field is answered 200 with a key combining the timestamp and the
original file name, and a subsequent GET of that key returns the
identical bytes, the original content type and an entity tag. -/
theorem C9_upload_round_trip {δ : Type} (ctx : Ctx δ) (st : Sys δ)
    (hs hs2 : List (String × String)) (fs : List (String × FilePart)) :
    (verifyBasicAuth ctx.env (uploadReq hs fs) = none → formGet fs "file" = none →
       handleFetch ctx (uploadReq hs fs) st = .ok (noFile400, st)) ∧
    (∀ f, verifyBasicAuth ctx.env (uploadReq hs fs) = none → formGet fs "file" = some f →
       handleFetch ctx (uploadReq hs fs) st =
         .ok (jsonResp (Json.obj
                [("success", .bool true),
                 ("key", .str (genKey ctx f)),
                 ("url", .str ("/api/files/" ++ genKey ctx f))]).stringify,
              { st with files := r2Put st.files (genKey ctx f) (storedOf f) }) ∧
       (verifyBasicAuth ctx.env (fileGetReq hs2 (genKey ctx f)) = none →
          handleFetch ctx (fileGetReq hs2 (genKey ctx f))
              { st with files := r2Put st.files (genKey ctx f) (storedOf f) } =
            .ok ({ status := 200,
                   headers := [("Content-Type", f.type), ("etag", r2Etag (storedOf f))],
                   body := .stream f.content },
                 { st with files := r2Put st.files (genKey ctx f) (storedOf f) }))) := by
  constructor
  · intro hauth hnone
    have h0 : handleFetch ctx (uploadReq hs fs) st = handleRoutes ctx (uploadReq hs fs) st := by
      simp [handleFetch, hauth]
    rw [h0, handleRoutes_upload]
    simp [hnone]
  · intro f hauth hsome
    have h0 : handleFetch ctx (uploadReq hs fs) st = handleRoutes ctx (uploadReq hs fs) st := by
      simp [handleFetch, hauth]
    constructor
    · rw [h0, handleRoutes_upload]
      simp [hsome, genKey, storedOf]
    · intro hauth2
      have h1 : handleFetch ctx (fileGetReq hs2 (genKey ctx f))
            { st with files := r2Put st.files (genKey ctx f) (storedOf f) } =
          handleRoutes ctx (fileGetReq hs2 (genKey ctx f))
            { st with files := r2Put st.files (genKey ctx f) (storedOf f) } := by
        simp [handleFetch, hauth2]
      rw [h1, handleRoutes_files_get ctx (fileGetReq hs2 (genKey ctx f)) _ rfl
            (jsStartsWith_append "/api/files/" (genKey ctx f))]
      have h11 : jsDrop (fileGetReq hs2 (genKey ctx f)).path 11 = genKey ctx f := by
        show jsDrop ("/api/files/" ++ genKey ctx f) 11 = genKey ctx f
        rw [show (11 : Nat) = String.length "/api/files/" from rfl]
        exact jsDrop_append _ _
      rw [h11]
      simp only [r2Get_put_self]
      rfl

/-- Witness for C9: a form without a file field is answered 400; the file
a.txt is stored under uploads/7-a.txt and retrieved bytewise with its
content type and an entity tag. -/
theorem C9_witness :
    handleFetch ctxOpen (uploadReq [] []) st0 = .ok (noFile400, st0) ∧
    handleFetch ctxOpen (uploadReq [] [("file", ⟨"a.txt", "text/plain", [104, 105]⟩)]) st0 =
      .ok (jsonResp (Json.obj
             [("success", .bool true),
              ("key", .str (genKey ctxOpen ⟨"a.txt", "text/plain", [104, 105]⟩)),
              ("url", .str ("/api/files/" ++ genKey ctxOpen ⟨"a.txt", "text/plain", [104, 105]⟩))]).stringify,
           { st0 with files := r2Put st0.files (genKey ctxOpen ⟨"a.txt", "text/plain", [104, 105]⟩)
                                  (storedOf ⟨"a.txt", "text/plain", [104, 105]⟩) }) ∧
    handleFetch ctxOpen (fileGetReq [] (genKey ctxOpen ⟨"a.txt", "text/plain", [104, 105]⟩))
        { st0 with files := r2Put st0.files (genKey ctxOpen ⟨"a.txt", "text/plain", [104, 105]⟩)
                               (storedOf ⟨"a.txt", "text/plain", [104, 105]⟩) } =
      .ok ({ status := 200,
             headers := [("Content-Type", "text/plain"),
                         ("etag", r2Etag (storedOf ⟨"a.txt", "text/plain", [104, 105]⟩))],
             body := .stream [104, 105] },
           { st0 with files := r2Put st0.files (genKey ctxOpen ⟨"a.txt", "text/plain", [104, 105]⟩)
                                  (storedOf ⟨"a.txt", "text/plain", [104, 105]⟩) }) :=
  ⟨(C9_upload_round_trip ctxOpen st0 [] [] []).1 rfl rfl,
   ((C9_upload_round_trip ctxOpen st0 [] [] [("file", ⟨"a.txt", "text/plain", [104, 105]⟩)]).2
      ⟨"a.txt", "text/plain", [104, 105]⟩ rfl rfl).1,
   ((C9_upload_round_trip ctxOpen st0 [] [] [("file", ⟨"a.txt", "text/plain", [104, 105]⟩)]).2
      ⟨"a.txt", "text/plain", [104, 105]⟩ rfl rfl).2 rfl⟩

theorem jsonEscape_replicate_a (n : Nat) :
    jsonEscape (List.replicate n 'a') = List.replicate n 'a' := by
  induction n with
  | zero => rfl
  | succ m ih =>
      rw [List.replicate_succ]
      show escapeChar 'a' ++ jsonEscape (List.replicate m 'a') = _
      rw [show escapeChar 'a' = ['a'] from rfl, ih]
      rfl

theorem stringify_replicate_a_length (n : Nat) :
    (Json.stringify (Json.str (String.mk (List.replicate n 'a')))).length = n + 2 := by
  show ('\"' :: (jsonEscape (String.mk (List.replicate n 'a')).data ++ ['\"'])).length = n + 2
  rw [show (String.mk (List.replicate n 'a')).data = List.replicate n 'a' from rfl,
      jsonEscape_replicate_a]
  simp

/-- C7: the code defines `checkLimits`, which answers 413 for a key-value
write whose serialized size exceeds the 25 MiB maximum, but `handleFetch`
never invokes it: the oversized request is acknowledged with 200 and the
value is written to the store. -/
theorem C7_limit_never_enforced :
    (Json.stringify bigVal).length > FREE_TIER_LIMITS.kv.maxValueSize ∧
    (∃ r, checkLimits .kv (Json.stringify bigVal).length = some r ∧ r.status = 413) ∧
    handleFetch ctxOpen bigReq st0 =
      .ok (jsonResp (Json.obj [("success", .bool true), ("key", .str "k")]).stringify,
           { st0 with storage := kvPut st0.storage "k" bigVal.stringify }) := by
  have hlen : (Json.stringify bigVal).length = 26214401 + 2 :=
    stringify_replicate_a_length 26214401
  have hgt : FREE_TIER_LIMITS.kv.maxValueSize < (Json.stringify bigVal).length := by
    rw [hlen]
    norm_num [FREE_TIER_LIMITS]
  refine ⟨hgt, ?_, ?_⟩
  · unfold checkLimits
    rw [if_pos ⟨rfl, hgt⟩]
    exact ⟨_, rfl, rfl⟩
  · have h0 : handleFetch ctxOpen bigReq st0 = handleRoutes ctxOpen bigReq st0 := by
      simp [handleFetch, show verifyBasicAuth ctxOpen.env bigReq = none from rfl]
    rw [h0]
    exact handleRoutes_kv_post ctxOpen st0 [] "k" bigVal

/-- C8 counterexample: the missing-key failure of the retrieval route is a
handled failure, yet its response body Not found is not the serialization
of any JSON value and the response carries no content-type header. -/
theorem C8_counterexample_plain_text_failure :
    handleFetch ctxOpen (kvGetReq [] "missing") st0 = .ok (notFound404, st0) ∧
    notFound404.status = 404 ∧
    notFound404.body = .text "Not found" ∧
    headerGet notFound404.headers "Content-Type" = none ∧
    ¬∃ j : Json, Json.stringify j = "Not found" := by
  refine ⟨rfl, rfl, rfl, rfl, ?_⟩
  rintro ⟨j, hj⟩
  exact stringify_ne_notFound j hj

/-- C8 amended: every handled failure returns a descriptive body and an
appropriate status code, but only the SQL execution fault carries a JSON
body with a JSON content type; the unauthorized, missing-key,
missing-object and missing-upload failures are plain-text responses. -/
theorem C8_handled_failures_shape {δ : Type} (ctx : Ctx δ) (st : Sys δ) :
    (∀ req r, verifyBasicAuth ctx.env req = some r →
       r.status = 401 ∧ r.body = .text "Unauthorized") ∧
    (∀ hs K, verifyBasicAuth ctx.env (kvGetReq hs K) = none →
       kvGet st.storage K = none →
       handleFetch ctx (kvGetReq hs K) st = .ok (notFound404, st)) ∧
    (∀ hs K, verifyBasicAuth ctx.env (fileGetReq hs K) = none →
       r2Get st.files K = none →
       handleFetch ctx (fileGetReq hs K) st = .ok (fileNotFound404, st)) ∧
    (∀ hs fs, verifyBasicAuth ctx.env (uploadReq hs fs) = none →
       formGet fs "file" = none →
       handleFetch ctx (uploadReq hs fs) st = .ok (noFile400, st)) ∧
    (∀ hs q ps e, verifyBasicAuth ctx.env (dbQueryReq hs q ps) = none →
       ctx.dbAll st.db q ps = .error e →
       handleFetch ctx (dbQueryReq hs q ps) st =
         .ok ({ status := 400, headers := ctJson,
                body := .text (Json.obj [("success", .bool false), ("error", .str e)]).stringify },
              st)) := by
  refine ⟨?_, ?_, ?_, ?_, ?_⟩
  · intro req r h
    unfold verifyBasicAuth at h
    split at h
    · exact Option.noConfusion h
    · split at h
      · injection h with h2
        subst h2
        exact ⟨rfl, rfl⟩
      · split at h
        · dsimp only at h
          split at h
          · exact Option.noConfusion h
          · injection h with h2
            subst h2
            exact ⟨rfl, rfl⟩
        · injection h with h2
          subst h2
          exact ⟨rfl, rfl⟩
  · intro hs K hauth hnone
    have h0 : handleFetch ctx (kvGetReq hs K) st = handleRoutes ctx (kvGetReq hs K) st := by
      simp [handleFetch, hauth]
    rw [h0, handleRoutes_kv_get ctx (kvGetReq hs K) st rfl (jsStartsWith_append "/api/kv/" K)]
    have h8 : jsDrop (kvGetReq hs K).path 8 = K := by
      show jsDrop ("/api/kv/" ++ K) 8 = K
      rw [show (8 : Nat) = String.length "/api/kv/" from rfl]
      exact jsDrop_append _ _
    rw [h8]
    simp [hnone]
  · intro hs K hauth hnone
    have h0 : handleFetch ctx (fileGetReq hs K) st = handleRoutes ctx (fileGetReq hs K) st := by
      simp [handleFetch, hauth]
    rw [h0, handleRoutes_files_get ctx (fileGetReq hs K) st rfl (jsStartsWith_append "/api/files/" K)]
    have h11 : jsDrop (fileGetReq hs K).path 11 = K := by
      show jsDrop ("/api/files/" ++ K) 11 = K
      rw [show (11 : Nat) = String.length "/api/files/" from rfl]
      exact jsDrop_append _ _
    rw [h11]
    simp [hnone]
  · intro hs fs hauth hnone
    have h0 : handleFetch ctx (uploadReq hs fs) st = handleRoutes ctx (uploadReq hs fs) st := by
      simp [handleFetch, hauth]
    rw [h0, handleRoutes_upload]
    simp [hnone]
  · intro hs q ps e hauth herr
    have h0 : handleFetch ctx (dbQueryReq hs q ps) st = handleRoutes ctx (dbQueryReq hs q ps) st := by
      simp [handleFetch, hauth]
    rw [h0, handleRoutes_db_query, herr]

/-- Witness for the amended C8 at the concrete context with credentials:
the unauthorized, missing-key, missing-object, missing-upload and SQL
fault responses all take the proved shapes. -/
theorem C8_witness :
    (({ status := 401, headers := [("WWW-Authenticate", "Basic realm=\"Agent\"")],
        body := .text "Unauthorized" } : Response).status = 401 ∧
     ({ status := 401, headers := [("WWW-Authenticate", "Basic realm=\"Agent\"")],
        body := .text "Unauthorized" } : Response).body = .text "Unauthorized") ∧
    handleFetch ctxAuth (kvGetReq authHs "missing") st0 = .ok (notFound404, st0) ∧
    handleFetch ctxAuth (fileGetReq authHs "missing") st0 = .ok (fileNotFound404, st0) ∧
    handleFetch ctxAuth (uploadReq authHs []) st0 = .ok (noFile400, st0) ∧
    handleFetch ctxAuth (dbQueryReq authHs "BAD" []) st0 =
      .ok ({ status := 400, headers := ctJson,
             body := .text (Json.obj
               [("success", .bool false),
                ("error", .str "syntax error at BAD")]).stringify },
           st0) :=
  ⟨(C8_handled_failures_shape ctxAuth st0).1
     { method := "GET", path := "/api/status", headers := [], body := .empty } _ rfl,
   (C8_handled_failures_shape ctxAuth st0).2.1 authHs "missing" rfl rfl,
   (C8_handled_failures_shape ctxAuth st0).2.2.1 authHs "missing" rfl rfl,
   (C8_handled_failures_shape ctxAuth st0).2.2.2.1 authHs [] rfl rfl,
   (C8_handled_failures_shape ctxAuth st0).2.2.2.2 authHs "BAD" [] "syntax error at BAD" rfl rfl⟩

/-- C10: an authenticated GET retrieval request, to `/api/kv/...` or to
`/api/files/...`, only reads from the collaborators: the dispatcher
returns the collaborator state unchanged, whether the key is present or
absent. -/
theorem C10_get_retrieval_frame {δ : Type} (ctx : Ctx δ) (req : Request) (st : Sys δ)
    (hauth : verifyBasicAuth ctx.env req = none)
    (hm : req.method = "GET")
    (hp : jsStartsWith req.path "/api/kv/" = true ∨ jsStartsWith req.path "/api/files/" = true) :
    ∃ r, handleFetch ctx req st = .ok (r, st) := by
  have h0 : handleFetch ctx req st = handleRoutes ctx req st := by
    simp [handleFetch, hauth]
  rcases hp with hp | hp
  · rw [h0, handleRoutes_kv_get ctx req st hm hp]
    rcases hkv : kvGet st.storage (jsDrop req.path 8) with _ | v
    · exact ⟨notFound404, by simp [hkv]⟩
    · by_cases hv : v = ""
      · exact ⟨notFound404, by simp [hkv, hv]⟩
      · exact ⟨{ status := 200, headers := ctJson, body := .text v }, by simp [hkv, hv]⟩
  · rw [h0, handleRoutes_files_get ctx req st hm hp]
    rcases hob : r2Get st.files (jsDrop req.path 11) with _ | o
    · exact ⟨fileNotFound404, by simp [hob]⟩
    · exact ⟨{ status := 200,
               headers := [("Content-Type", o.contentType), ("etag", r2Etag o)],
               body := .stream o.body }, by simp [hob]⟩

/-- Witness for C10: an authenticated GET for an absent key leaves the
empty state unchanged. -/
theorem C10_witness :
    verifyBasicAuth ctxAuth.env (kvGetReq authHs "nope") = none ∧
    ∃ r, handleFetch ctxAuth (kvGetReq authHs "nope") st0 = .ok (r, st0) :=
  ⟨rfl, C10_get_retrieval_frame ctxAuth (kvGetReq authHs "nope") st0 rfl rfl (Or.inl (by decide))⟩

end CCB
